import Mathlib

/-!
Verification development for the hive-orchestrator repository.

This file gives a shallow embedding, in Lean 4, of the orchestration logic of
`src/hive/commands/work.py`, `src/hive/worktree.py` and `src/hive/utils.py`,
and proves (or refutes) the frozen claims about it.

Modelling conventions:
* External tools (the `bd` tracker, `tmux`, `git`, the filesystem) are oracles:
  a structure records the exit code and the parsed output each call would
  return.  JSON-decoding failures are modelled as `none`; decoded payloads of
  the expected record shape are modelled as typed records (the adapter-boundary
  representation the code immediately projects them to), except where a claim
  is precisely about unexpected shapes, in which case a small `Json` type is
  used.
* Side effects (commands issued, files written) are collected in explicit
  effect traces, in program order.
* Python exceptions are modelled with `Except`; a caught-and-ignored exception
  path is simply the corresponding branch.
-/

namespace Hive

/-! ## A minimal JSON value type (for claims about payload shapes) -/

/-- A JSON value, as produced by `json.loads`. -/
inductive Json where
  | null
  | bool (b : Bool)
  | num (n : Int)
  | str (s : String)
  | arr (elems : List Json)
  | obj (fields : List (String × Json))
deriving Repr

/-! ## Task Source Adapter: `get_task_status` (work.py lines 110-120)

`get_task_status(task_id)` runs `bd show <id> --json`; on nonzero exit it
returns `"unknown"`.  Otherwise it parses stdout and evaluates
`task.get("status", "unknown")`.  The `except` clause catches only
`json.JSONDecodeError` and `KeyError`.  Python's `dict.get` exists only on
objects: on any other decoded value (`list`, `str`, `int`, ...) the attribute
access raises `AttributeError`, which is not caught.

The model is parameterised by the `bd show` exit code and by the decoded
payload (`none` = `json.JSONDecodeError`).  The result is `Except`: `.error`
models an uncaught Python exception escaping the function. -/
def get_task_status (returncode : Int) (payload : Option Json) : Except String Json :=
  if returncode != 0 then
    .ok (.str "unknown")
  else
    match payload with
    | none => .ok (.str "unknown")
    | some j =>
      match j with
      | .obj fields => .ok (((fields.lookup "status").getD (.str "unknown")))
      | _ => .error "AttributeError"

/-! ## Task Source Adapter: `get_next_task` (work.py lines 44-92) -/

/-- One entry of a task's `dependencies` array as reported by `bd show`:
the code only reads `dep.get("status")`. -/
structure DepRec where
  status : Option String
deriving DecidableEq, Repr

/-- One element of the `bd show --json` array: the code only reads
`task_detail.get("dependencies", [])`. -/
structure TaskDetail where
  dependencies : List DepRec
deriving DecidableEq, Repr

/-- One element of the `bd list --ready --json` array: the code reads
`task.get("id")`, `task.get("title", "")` and
`task.get("dependency_count", 0)`.  `id = none` models an absent key. -/
structure TaskRec where
  id : Option String
  title : Option String
  dependency_count : Nat
deriving DecidableEq, Repr

/-- Result of one `bd show <id> --json` invocation: exit code plus decoded
payload (`none` = JSON decode error; the payload is a JSON array of task
details, exactly the shape lines 75-79 project it to). -/
structure ShowResult where
  returncode : Int
  parsed : Option (List TaskDetail)
deriving Repr

/-- The tracker as seen by one `get_next_task` call: the result of
`bd list --ready --json` (exit code and decoded array, `none` = decode
error) and the result of `bd show` for each task id. -/
structure BdOracle where
  listReturncode : Int
  listParsed : Option (List TaskRec)
  showTask : String → ShowResult

/-- The check `all(dep.get("status") == "closed" for dep in dependencies)`
(work.py line 83). -/
def depsAllClosed (deps : List DepRec) : Bool :=
  deps.all (fun d => d.status == some "closed")

/-- The `for task in tasks` loop of work.py lines 59-87, translated branch by
branch: return the task if its declared `dependency_count` is 0; skip tasks
with a falsy id; skip tasks whose `bd show` fails, fails to decode, or
decodes to an empty array; return the task if all reported dependencies are
closed, otherwise keep scanning. -/
def get_next_task_loop (o : BdOracle) : List TaskRec → Option TaskRec
  | [] => none
  | t :: rest =>
    if t.dependency_count == 0 then some t
    else
      match t.id with
      | none => get_next_task_loop o rest
      | some tid =>
        if tid.isEmpty then get_next_task_loop o rest
        else if (o.showTask tid).returncode != 0 then get_next_task_loop o rest
        else
          match (o.showTask tid).parsed with
          | none => get_next_task_loop o rest
          | some [] => get_next_task_loop o rest
          | some (td :: _) =>
            if depsAllClosed td.dependencies then some t
            else get_next_task_loop o rest

/-- Function `get_next_task()` (work.py lines 44-92): `None` on nonzero exit of
`bd list`, on a JSON decode error, on an empty list, and when the scan loop
falls through. -/
def get_next_task (o : BdOracle) : Option TaskRec :=
  if o.listReturncode != 0 then none
  else
    match o.listParsed with
    | none => none
    | some [] => none
    | some tasks => get_next_task_loop o tasks

/-- The per-task readiness condition the scan loop uses, as a single
predicate: declared dependency count zero, or (truthy id, `bd show` exited 0,
payload decoded to a nonempty array, and every reported dependency is
closed). -/
def taskEligible (o : BdOracle) (t : TaskRec) : Bool :=
  t.dependency_count == 0 ||
    (match t.id with
     | none => false
     | some tid =>
       !tid.isEmpty &&
       (o.showTask tid).returncode == 0 &&
       (match (o.showTask tid).parsed with
        | some (td :: _) => depsAllClosed td.dependencies
        | _ => false))

theorem get_next_task_loop_cons (o : BdOracle) (t : TaskRec) (rest : List TaskRec) :
    get_next_task_loop o (t :: rest) =
      if taskEligible o t then some t else get_next_task_loop o rest := by
  obtain ⟨oid, otitle, dc⟩ := t
  simp only [get_next_task_loop, taskEligible]
  by_cases hdc : dc = 0
  · simp [hdc]
  · cases oid with
    | none => simp [hdc]
    | some tid =>
      by_cases hemp : tid.isEmpty = true
      · simp [hdc, hemp]
      · by_cases hrc : (o.showTask tid).returncode = 0
        · cases hp : (o.showTask tid).parsed with
          | none => simp [hdc, hemp, hrc, hp]
          | some tds =>
            cases tds with
            | nil => simp [hdc, hemp, hrc, hp]
            | cons td more =>
              by_cases hcl : depsAllClosed td.dependencies = true
              · simp [hdc, hemp, hrc, hp, hcl]
              · simp [hdc, hemp, hrc, hp, hcl]
        · simp [hdc, hemp, hrc, bne_iff_ne]

theorem get_next_task_loop_eq_find (o : BdOracle) (ts : List TaskRec) :
    get_next_task_loop o ts = ts.find? (fun t => taskEligible o t) := by
  induction ts with
  | nil => rfl
  | cons t rest ih =>
    rw [get_next_task_loop_cons]
    cases h : taskEligible o t with
    | true => simp [List.find?, h]
    | false => simp [List.find?, h, ih]

/-- A tracker oracle representing an unreachable tracker: `bd list` exits 1
and nothing decodes. -/
def oracleDown : BdOracle :=
  { listReturncode := 1, listParsed := none, showTask := fun _ => { returncode := 1, parsed := none } }

/-- C3: a task returned by `get_next_task` with a nonzero declared dependency
count has all of its reported dependencies `closed`; the task returned is the
first, in tracker-provided order, satisfying the scan loop's readiness
condition (`taskEligible`: declared dependency count zero, or full reported
dependency set closed); and on tracker communication failure (nonzero exit or
undecodable output) or an empty ready list the function returns `none`.
"Nonempty dependency list" is formalised as the declared `dependency_count`
being nonzero, which is the signal the code uses to decide whether a
dependency list must be consulted at all. -/
theorem C3_next_ready_task_dependency_closure (o : BdOracle) :
    (o.listReturncode ≠ 0 ∨ o.listParsed = none ∨ o.listParsed = some [] →
        get_next_task o = none)
  ∧ (∀ ts, o.listReturncode = 0 → o.listParsed = some ts →
        get_next_task o = ts.find? (fun t => taskEligible o t))
  ∧ (∀ t, get_next_task o = some t → t.dependency_count ≠ 0 →
        ∃ tid td tds, t.id = some tid ∧ (o.showTask tid).parsed = some (td :: tds) ∧
          ∀ d ∈ td.dependencies, d.status = some "closed") := by
  refine ⟨?_, ?_, ?_⟩
  · rintro (h | h | h)
    · simp [get_next_task, bne_iff_ne, h]
    · simp [get_next_task, h]
    · simp [get_next_task, h]
  · intro ts h1 h2
    cases ts with
    | nil => simp [get_next_task, h1, h2, List.find?]
    | cons a l => simp [get_next_task, h1, h2, get_next_task_loop_eq_find]
  · intro t hres hdc
    unfold get_next_task at hres
    split at hres
    · exact absurd hres (by simp)
    · split at hres
      · exact absurd hres (by simp)
      · exact absurd hres (by simp)
      · rw [get_next_task_loop_eq_find] at hres
        have helig := List.find?_some hres
        unfold taskEligible at helig
        have hdcb : (t.dependency_count == 0) = false := by
          simpa using hdc
        rw [hdcb, Bool.false_or] at helig
        cases hid : t.id with
        | none => rw [hid] at helig; simp at helig
        | some tid =>
          rw [hid] at helig
          cases hp : (o.showTask tid).parsed with
          | none => simp [hp] at helig
          | some tds =>
            cases tds with
            | nil => simp [hp] at helig
            | cons td more =>
              simp only [hp, Bool.and_eq_true] at helig
              refine ⟨tid, td, more, rfl, hp, ?_⟩
              intro d hd
              have hall := helig.2
              unfold depsAllClosed at hall
              rw [List.all_eq_true] at hall
              simpa using hall d hd

/-- Witness for C3 at a concrete input: an unreachable tracker yields no
task. -/
theorem C3_witness : get_next_task oracleDown = none :=
  (C3_next_ready_task_dependency_closure oracleDown).1 (Or.inl (by decide))

/-- First ready-list task used by the C9 witness: declared dependency count 2
but the detail query reports an empty `dependencies` array. -/
def taskEmptyDeps : TaskRec :=
  { id := some "hive-9", title := some "t", dependency_count := 2 }

/-- Tracker oracle for the C9 witness. -/
def oracleEmptyDeps : BdOracle :=
  { listReturncode := 0
    listParsed := some [taskEmptyDeps]
    showTask := fun _ => { returncode := 0, parsed := some [{ dependencies := [] }] } }

/-- C9: a ready-list task with nonzero declared `dependency_count` whose
follow-up detail query reports an empty `dependencies` list passes the
`all(...)` check vacuously, so `get_next_task` returns it (here stated for
the task at the head of the tracker-provided order). -/
theorem C9_empty_dependency_list_is_ready (o : BdOracle) (t : TaskRec)
    (rest : List TaskRec) (tid : String) (td : TaskDetail) (tds : List TaskDetail)
    (hrc : o.listReturncode = 0)
    (hparsed : o.listParsed = some (t :: rest))
    (hid : t.id = some tid)
    (hne : tid.isEmpty = false)
    (hsrc : (o.showTask tid).returncode = 0)
    (hsp : (o.showTask tid).parsed = some (td :: tds))
    (hdeps : td.dependencies = []) :
    get_next_task o = some t := by
  have helig : taskEligible o t = true := by
    unfold taskEligible
    rw [hid]
    simp [hne, hsrc, hsp, hdeps, depsAllClosed]
  simp [get_next_task, hrc, hparsed, get_next_task_loop_eq_find, List.find?, helig]

/-- Witness for C9 at a concrete input. -/
theorem C9_witness : get_next_task oracleEmptyDeps = some taskEmptyDeps :=
  C9_empty_dependency_list_is_ready oracleEmptyDeps taskEmptyDeps [] "hive-9"
    { dependencies := [] } [] rfl rfl rfl (by decide) rfl rfl rfl

/-- C6 (code bug): `get_task_status` returns `"unknown"` on a nonzero exit
code and on an undecodable payload, but when `bd show` exits 0 with a payload
that decodes to a JSON array — the very shape `get_next_task` expects from
the same command at lines 75-79 — the attribute access `task.get` raises an
uncaught `AttributeError` instead of returning `"unknown"`. -/
theorem C6_get_task_status_raises_on_array_payload :
    get_task_status 0
        (some (Json.arr [Json.obj [("id", Json.str "hive-123"), ("status", Json.str "done")]]))
      = .error "AttributeError"
  ∧ get_task_status 1 none = .ok (.str "unknown")
  ∧ get_task_status 0 none = .ok (.str "unknown")
  ∧ get_task_status 0 (some (Json.obj [("status", Json.str "done")])) = .ok (.str "done") :=
  ⟨rfl, rfl, rfl, rfl⟩

/-! ## Registry Store (work.py lines 165-243, utils.py lines 22-129)

The registry file `.hive/workers.json` holds a record with a `workers` array
and a `last_updated` stamp.  Each operation is modelled as a pure function
from the previously decoded file content (`none` = `FileNotFoundError` or
`json.JSONDecodeError`) to the data it writes back, paired with the trace of
file operations it performs.  The several `datetime.now().isoformat()` calls
inside one operation are collapsed into a single `now` argument. -/

/-- One worker record (work.py lines 178-186). -/
structure WorkerEntry where
  id : String
  pid : Nat
  tmux_session : String
  worktree : String
  current_task : String
  started_at : String
  last_activity : String
deriving DecidableEq, Repr

/-- The decoded registry file: `workers` array plus `last_updated` stamp. -/
structure RegistryData where
  workers : List WorkerEntry
  last_updated : Option String
deriving DecidableEq, Repr

/-- File-level operations the registry code performs, in program order. -/
inductive FileOp where
  | openRead (path : String)
  | writeWhole (path : String)
  | mkdirParents (path : String)
  | createEmpty (path : String)
  | openReadWrite (path : String)
  | readAll (path : String)
  | lockExclusive (path : String)
  | lockShared (path : String)
  | unlock (path : String)
  | writeTemp (tmpPath : String)
  | flushTemp (tmpPath : String)
  | fsyncTemp (tmpPath : String)
  | renameInto (tmpPath : String) (path : String)
deriving DecidableEq, Repr

/-- The fixed registry path (work.py lines 167, 202, 224). -/
def workersPath : String := ".hive/workers.json"

/-- Function `register_worker` (work.py lines 165-197): read the file (falling back to
an empty registry on missing file or decode error), drop any record with the
same worker id, append the fresh record, stamp `last_updated`, and write the
whole file back with a plain truncating `open(path, "w")`. -/
def register_worker (now workerId : String) (pid : Nat)
    (taskId tmuxSession worktree : String) (prev : Option RegistryData) :
    RegistryData × List FileOp :=
  let d := prev.getD { workers := [], last_updated := none }
  let entry : WorkerEntry :=
    { id := workerId, pid := pid, tmux_session := tmuxSession, worktree := worktree
      current_task := taskId, started_at := now, last_activity := now }
  ({ workers := (d.workers.filter (fun w => w.id != workerId)) ++ [entry]
     last_updated := some now },
   [.openRead workersPath, .writeWhole workersPath])

/-- Function `unregister_worker` (work.py lines 200-219): return silently when the
file is missing or undecodable; otherwise filter out the worker id, stamp
`last_updated`, and write the whole file back directly. -/
def unregister_worker (now workerId : String) (prev : Option RegistryData) :
    Option RegistryData × List FileOp :=
  match prev with
  | none => (none, [.openRead workersPath])
  | some d =>
    (some { workers := d.workers.filter (fun w => w.id != workerId)
            last_updated := some now },
     [.openRead workersPath, .writeWhole workersPath])

/-- The `for worker in workers: ... break` loop of work.py lines 234-237:
update `last_activity` of the first record matching the worker id, leave
everything else as is. -/
def touchFirst (workerId now : String) : List WorkerEntry → List WorkerEntry
  | [] => []
  | w :: rest =>
    if w.id == workerId then { w with last_activity := now } :: rest
    else w :: touchFirst workerId now rest

/-- Function `update_worker_activity` (work.py lines 222-243): return silently when
the file is missing or undecodable; otherwise update the first matching
record's `last_activity`, unconditionally stamp `last_updated`, and write the
whole file back directly — even when no record matched. -/
def update_worker_activity (now workerId : String) (prev : Option RegistryData) :
    Option RegistryData × List FileOp :=
  match prev with
  | none => (none, [.openRead workersPath])
  | some d =>
    (some { workers := touchFirst workerId now d.workers, last_updated := some now },
     [.openRead workersPath, .writeWhole workersPath])

/-- The write-mode file-operation trace of `locked_json_file` (utils.py lines
52-129, with `fcntl` available): ensure the parent directory, create the file
if absent, open, take the exclusive lock, read, then write to a temp file,
flush it, `fsync` it, atomically rename it over the target, and unlock. -/
def locked_json_write_ops (path tmpPath : String) (existed : Bool) : List FileOp :=
  [.mkdirParents path]
  ++ (if existed then [] else [.createEmpty path])
  ++ [.openReadWrite path, .lockExclusive path, .readAll path,
      .writeTemp tmpPath, .flushTemp tmpPath, .fsyncTemp tmpPath,
      .renameInto tmpPath path, .unlock path]

/-- Does the trace contain a direct whole-file truncating write? -/
def hasDirectWrite (ops : List FileOp) : Bool :=
  ops.any fun op => match op with | .writeWhole _ => true | _ => false

/-- Does the trace take any file lock? -/
def hasLockOp (ops : List FileOp) : Bool :=
  ops.any fun op =>
    match op with
    | .lockExclusive _ => true
    | .lockShared _ => true
    | _ => false

/-- Does the trace rename a temp file into place? -/
def hasRenameOp (ops : List FileOp) : Bool :=
  ops.any fun op => match op with | .renameInto _ _ => true | _ => false

/-- C2 (code bug): the `locked_json_file` write path really does follow
lock → write-temp → flush → fsync → atomic-rename → unlock, with no direct
write of the target; but none of the registry operations use it: `register`,
`unregister` and `touch` each write `.hive/workers.json` with a plain
truncating write and take no lock, write no temp file and perform no rename
— contradicting both the spec and the locking discipline the daemon's reader
of the same file relies on. -/
theorem C2_registry_ops_bypass_atomic_write_pattern
    (now workerId : String) (pid : Nat) (taskId sess wt : String)
    (prev : Option RegistryData) (d : RegistryData)
    (path tmpPath : String) (existed : Bool) :
    ([.lockExclusive path, .writeTemp tmpPath, .flushTemp tmpPath, .fsyncTemp tmpPath,
      .renameInto tmpPath path, .unlock path].Sublist
        (locked_json_write_ops path tmpPath existed)
      ∧ hasDirectWrite (locked_json_write_ops path tmpPath existed) = false)
  ∧ ((register_worker now workerId pid taskId sess wt prev).snd
        = [.openRead workersPath, .writeWhole workersPath]
      ∧ (unregister_worker now workerId (some d)).snd
        = [.openRead workersPath, .writeWhole workersPath]
      ∧ (update_worker_activity now workerId (some d)).snd
        = [.openRead workersPath, .writeWhole workersPath])
  ∧ (hasLockOp (register_worker now workerId pid taskId sess wt prev).snd = false
      ∧ hasRenameOp (register_worker now workerId pid taskId sess wt prev).snd = false
      ∧ hasLockOp (unregister_worker now workerId (some d)).snd = false
      ∧ hasRenameOp (unregister_worker now workerId (some d)).snd = false
      ∧ hasLockOp (update_worker_activity now workerId (some d)).snd = false
      ∧ hasRenameOp (update_worker_activity now workerId (some d)).snd = false) := by
  refine ⟨⟨?_, ?_⟩, ⟨rfl, rfl, rfl⟩, ⟨rfl, rfl, rfl, rfl, rfl, rfl⟩⟩
  · cases existed <;>
      simp only [locked_json_write_ops, List.cons_append, List.nil_append,
        if_true, if_false, Bool.false_eq_true] <;>
      repeat first
        | exact List.Sublist.refl _
        | apply List.Sublist.cons₂
        | apply List.Sublist.cons
  · cases existed <;> rfl

/-- A registry with no matching record, for the C8 refutation. -/
def emptyRegistry : RegistryData := { workers := [], last_updated := none }

/-- C8 counterexample: when the named worker has no record, the touch
operation is not a no-op — it still rewrites the file and changes the
top-level `last_updated` stamp. -/
theorem C8_counterexample_touch_not_noop :
    (update_worker_activity "T2" "worker-1" (some emptyRegistry)).fst ≠ some emptyRegistry
  ∧ hasDirectWrite (update_worker_activity "T2" "worker-1" (some emptyRegistry)).snd = true := by
  exact ⟨by decide, rfl⟩

theorem touchFirst_length (workerId now : String) (l : List WorkerEntry) :
    (touchFirst workerId now l).length = l.length := by
  induction l with
  | nil => rfl
  | cons w rest ih =>
    by_cases h : w.id == workerId
    · simp [touchFirst, h]
    · simp [touchFirst, h, ih]

theorem touchFirst_get (workerId now : String) :
    ∀ (l : List WorkerEntry) (i : Nat) (w w' : WorkerEntry),
      l.get? i = some w → (touchFirst workerId now l).get? i = some w' →
        w'.id = w.id ∧ w'.pid = w.pid ∧ w'.tmux_session = w.tmux_session ∧
        w'.worktree = w.worktree ∧ w'.current_task = w.current_task ∧
        w'.started_at = w.started_at ∧
        (w'.last_activity = w.last_activity ∨ (w.id = workerId ∧ w'.last_activity = now)) ∧
        (w.id ≠ workerId → w' = w) := by
  intro l
  induction l with
  | nil => intro i w w' h; simp at h
  | cons v rest ih =>
    intro i w w' hw hw'
    by_cases hv : v.id == workerId
    · rw [touchFirst, if_pos hv] at hw'
      cases i with
      | zero =>
        simp only [List.get?] at hw hw'
        cases hw; cases hw'
        have hveq : v.id = workerId := by simpa using hv
        exact ⟨rfl, rfl, rfl, rfl, rfl, rfl, Or.inr ⟨hveq, rfl⟩,
          fun hne => absurd hveq hne⟩
      | succ j =>
        simp only [List.get?] at hw hw'
        rw [hw] at hw'
        cases hw'
        exact ⟨rfl, rfl, rfl, rfl, rfl, rfl, Or.inl rfl, fun _ => rfl⟩
    · rw [touchFirst, if_neg hv] at hw'
      cases i with
      | zero =>
        simp only [List.get?] at hw hw'
        cases hw; cases hw'
        exact ⟨rfl, rfl, rfl, rfl, rfl, rfl, Or.inl rfl, fun _ => rfl⟩
      | succ j =>
        simp only [List.get?] at hw hw'
        exact ih j w w' hw hw'

theorem touchFirst_of_absent (workerId now : String) :
    ∀ (l : List WorkerEntry), (∀ w ∈ l, w.id ≠ workerId) →
      touchFirst workerId now l = l := by
  intro l
  induction l with
  | nil => intro _; rfl
  | cons v rest ih =>
    intro h
    have hv : (v.id == workerId) = false := by
      simpa using h v (List.mem_cons_self v rest)
    rw [touchFirst, if_neg (by simp [hv])]
    rw [ih (fun w hw => h w (List.mem_cons_of_mem v hw))]

/-- C8 (amended): the touch operation never touches any field of any record
other than the matched record's `last_activity`; records whose id differs
from the named worker are returned exactly unchanged; but the operation
always stamps the top-level `last_updated` and always rewrites the file, so
when the record is absent the workers array is unchanged while the file is
still rewritten with a new `last_updated`.  The only genuinely silent path is
a missing or undecodable file. -/
theorem C8_touch_frame (now workerId : String) (d : RegistryData)
    (res : RegistryData)
    (hres : (update_worker_activity now workerId (some d)).fst = some res) :
    res.last_updated = some now
  ∧ (update_worker_activity now workerId (some d)).snd
      = [.openRead workersPath, .writeWhole workersPath]
  ∧ res.workers.length = d.workers.length
  ∧ (∀ i w w', d.workers.get? i = some w → res.workers.get? i = some w' →
        w'.id = w.id ∧ w'.pid = w.pid ∧ w'.tmux_session = w.tmux_session ∧
        w'.worktree = w.worktree ∧ w'.current_task = w.current_task ∧
        w'.started_at = w.started_at ∧
        (w'.last_activity = w.last_activity ∨ (w.id = workerId ∧ w'.last_activity = now)) ∧
        (w.id ≠ workerId → w' = w))
  ∧ ((∀ w ∈ d.workers, w.id ≠ workerId) → res.workers = d.workers)
  ∧ update_worker_activity now workerId none = (none, [.openRead workersPath]) := by
  have hres' : res = { workers := touchFirst workerId now d.workers, last_updated := some now } := by
    simpa [update_worker_activity] using hres.symm
  subst hres'
  refine ⟨rfl, rfl, touchFirst_length workerId now d.workers, ?_, ?_, rfl⟩
  · intro i w w' hw hw'
    exact touchFirst_get workerId now d.workers i w w' hw hw'
  · intro h
    exact touchFirst_of_absent workerId now d.workers h

/-- A one-record registry for the C8 witness. -/
def oneEntryRegistry : RegistryData :=
  { workers := [{ id := "worker-1", pid := 7, tmux_session := "s1", worktree := "wt1"
                  current_task := "t1", started_at := "T0", last_activity := "T0" }]
    last_updated := some "T0" }

/-- The registry `oneEntryRegistry` after touching `worker-1` at time `T2`. -/
def oneEntryTouched : RegistryData :=
  { workers := [{ id := "worker-1", pid := 7, tmux_session := "s1", worktree := "wt1"
                  current_task := "t1", started_at := "T0", last_activity := "T2" }]
    last_updated := some "T2" }

/-- Witness for C8 at a concrete input. -/
theorem C8_witness :
    oneEntryTouched.last_updated = some "T2"
  ∧ oneEntryTouched.workers.length = oneEntryRegistry.workers.length :=
  ⟨(C8_touch_frame "T2" "worker-1" oneEntryRegistry oneEntryTouched (by decide)).1,
   (C8_touch_frame "T2" "worker-1" oneEntryRegistry oneEntryTouched (by decide)).2.2.1⟩

/-! ## Ralph Loop Engine (work.py lines 123-162, 246-490)

One loop iteration is modelled as a function of an oracle world (the answers
every external call would return, in the order the code makes them) producing
the iteration's return value plus the trace of externally visible effects.
The poll phase is driven by a finite list of tick observations; if the list
is exhausted the real loop is still running, modelled as result `none`.
Task statuses observed through `get_task_status` are modelled as the strings
that function returns on its non-raising paths. -/

/-- Externally visible effects of one loop iteration, in program order. -/
inductive Effect where
  | bdClaim (taskId : String)
  | bdUpdate (taskId : String) (status : String) (notes : String)
  | createWorktree (workerId : String) (taskId : String)
  | removeWorktree (workerId : String) (taskId : String)
  | tmuxKill (session : String)
  | tmuxNewSession (session : String) (dir : String)
  | tmuxSendKeys (session : String) (text : String)
  | registerWorker (workerId : String) (taskId : String) (session : String) (worktree : String)
  | touchWorker (workerId : String)
  | unregisterWorker (workerId : String)
  | gitCheckout (branch : String)
  | gitMerge (branch : String)
  | gitMergeAbort
  | sleep (secs : Nat)
deriving DecidableEq, Repr

/-- Function `check_tmux_activity` (work.py lines 134-145): false when `capture-pane`
fails, otherwise true exactly when the stripped pane text splits into more
than 2 lines. -/
def check_tmux_activity (returncode : Int) (stdout : String) : Bool :=
  if returncode != 0 then false
  else (stdout.trim.splitOn "\n").length > 2

/-- Function `merge_branch` (work.py lines 148-162): checkout `main` (give up on
failure), merge the branch with `--no-edit`; on merge failure issue
`git merge --abort` and report failure. -/
def merge_branch (checkoutRc mergeRc : Int) (branch : String) : Bool × List Effect :=
  if checkoutRc != 0 then (false, [.gitCheckout "main"])
  else if mergeRc != 0 then
    (false, [.gitCheckout "main", .gitMerge branch, .gitMergeAbort])
  else (true, [.gitCheckout "main", .gitMerge branch])

/-- The liveness decision of work.py lines 362-372, as a function of the
observed status, the `capture-pane` result and session existence. -/
def spawn_liveness (status : String) (captureRc : Int) (captureOut : String)
    (sessExists : Bool) : Bool :=
  if status != "in_progress" then true
  else if check_tmux_activity captureRc captureOut then true
  else if !sessExists then false
  else true

/-- The note written on spawn failure (work.py line 377). -/
def spawnFailNote (grace : Nat) : String :=
  "agent_spawn_failed: no activity within " ++ toString grace ++ "s"

/-- The note written on timeout (work.py line 399). -/
def timeoutNote (t : Nat) : String :=
  "Timeout after " ++ toString t ++ "s"

/-- Loop parameters (the keyword arguments of `ralph_loop_iteration`). -/
structure IterParams where
  workerId : String
  poll_interval : Nat
  task_timeout : Nat
  spawn_grace : Nat
  agent_command : String
deriving Repr

/-- One observation of the poll loop (work.py lines 393-442): whether the
timeout check fires at this tick, whether the session still exists, and the
status `get_task_status` reports. -/
structure PollTick where
  timedOut : Bool
  sessionExists : Bool
  status : String
deriving DecidableEq, Repr

/-- All answers the external world gives to one loop iteration, in the order
the code asks. -/
structure IterWorld where
  bd : BdOracle
  claimOk : Bool
  staleWorktree : Bool
  createResult : Except String String
  contextResult : Except String Unit
  graceStatus : String
  graceCaptureRc : Int
  graceCaptureOut : String
  graceSessionExists : Bool
  ticks : List PollTick
  checkoutRc : Int
  mergeRc : Int

/-- The poll loop (work.py lines 393-442), tick by tick: timeout first, then
the session-death check (marking `crashed` only if the status is still
`in_progress`, otherwise adopting the external status as the outcome), then
the registry heartbeat touch, then the status branches, else sleep and
repeat.  Result `none` means the observation list ran out with the loop
still spinning. -/
def poll_loop (p : IterParams) (taskId : String) :
    List PollTick → Option String × List Effect
  | [] => (none, [])
  | tick :: rest =>
    if tick.timedOut then
      (some "timeout", [.bdUpdate taskId "failed" (timeoutNote p.task_timeout)])
    else if !tick.sessionExists then
      if tick.status == "in_progress" then
        (some "crashed", [.bdUpdate taskId "failed" "Session crashed"])
      else (some tick.status, [])
    else if tick.status == "done" then (some "done", [.touchWorker p.workerId])
    else if tick.status == "too_big" then (some "too_big", [.touchWorker p.workerId])
    else if tick.status == "blocked" then (some "blocked", [.touchWorker p.workerId])
    else if tick.status == "failed" then (some "failed", [.touchWorker p.workerId])
    else
      let r := poll_loop p taskId rest
      (r.fst, .touchWorker p.workerId :: .sleep p.poll_interval :: r.snd)

/-- Outcome handling (work.py lines 454-482): on `done` merge and either
remove the worktree (merge ok) or mark the task `blocked` and keep it; keep
the worktree on `blocked`; remove it on `too_big`, `failed`, `timeout`,
`crashed` and on any unexpected outcome. -/
def handle_outcome (p : IterParams) (taskId branch worktreePath : String)
    (checkoutRc mergeRc : Int) (outcome : String) : List Effect :=
  if outcome == "done" then
    let m := merge_branch checkoutRc mergeRc branch
    if m.fst then m.snd ++ [.removeWorktree p.workerId taskId]
    else m.snd ++ [.bdUpdate taskId "blocked"
      ("Merge conflict, needs human resolution. Worktree: " ++ worktreePath)]
  else if outcome == "too_big" then [.removeWorktree p.workerId taskId]
  else if outcome == "blocked" then []
  else if outcome == "failed" || outcome == "timeout" || outcome == "crashed" then
    [.removeWorktree p.workerId taskId]
  else [.removeWorktree p.workerId taskId]

/-- Effects of steps 2-5 (claim, stale-worktree cleanup, worktree creation,
context generation, agent spawn, registration, grace sleep) on the path where
they all succeed (work.py lines 274-359). -/
def preEffects (w : IterWorld) (p : IterParams)
    (taskId session worktreePath : String) : List Effect :=
  .bdClaim taskId ::
    (if w.staleWorktree then [.removeWorktree p.workerId taskId] else [])
  ++ [.createWorktree p.workerId taskId,
      .tmuxKill session, .tmuxNewSession session worktreePath,
      .tmuxSendKeys session p.agent_command,
      .registerWorker p.workerId taskId session worktreePath,
      .sleep p.spawn_grace]

/-- Steps 7-9 (work.py lines 384-490): poll to an outcome, kill the session,
handle the outcome, unregister, return `True`. -/
def supervise_phase (w : IterWorld) (p : IterParams)
    (taskId session branch worktreePath : String) : Option (Bool × List Effect) :=
  match poll_loop p taskId w.ticks with
  | (none, _) => none
  | (some outcome, pes) =>
    some (true, pes ++ .tmuxKill session ::
      handle_outcome p taskId branch worktreePath w.checkoutRc w.mergeRc outcome
      ++ [.unregisterWorker p.workerId])

/-- Function `ralph_loop_iteration` (work.py lines 246-490), branch by branch:
no task → return `False`; claim failure → sleep 1, return `True`; worktree
creation failure → mark failed, return `True`; context failure → mark
failed, remove worktree, return `True`; spawn-failure (no liveness within the
grace period) → mark failed with the `agent_spawn_failed` note, kill the
session, remove the worktree, return `True` — without unregistering; liveness
→ the supervise phase, which ends with the outcome handling and the
unregistration. -/
def ralph_loop_iteration (w : IterWorld) (p : IterParams) :
    Option (Bool × List Effect) :=
  match get_next_task w.bd with
  | none => some (false, [])
  | some task =>
    let taskId := task.id.getD ""
    let branch := "task-" ++ taskId
    let session := "hive-" ++ p.workerId ++ "-" ++ taskId
    if !w.claimOk then some (true, [.bdClaim taskId, .sleep 1])
    else
      let staleEffects : List Effect :=
        if w.staleWorktree then [.removeWorktree p.workerId taskId] else []
      match w.createResult with
      | .error e =>
        some (true, .bdClaim taskId :: staleEffects
          ++ [.bdUpdate taskId "failed" ("Worktree creation failed: " ++ e)])
      | .ok worktreePath =>
        match w.contextResult with
        | .error e =>
          some (true, .bdClaim taskId :: staleEffects
            ++ [.createWorktree p.workerId taskId,
                .bdUpdate taskId "failed" ("Context generation failed: " ++ e),
                .removeWorktree p.workerId taskId])
        | .ok _ =>
          if spawn_liveness w.graceStatus w.graceCaptureRc w.graceCaptureOut
              w.graceSessionExists then
            match supervise_phase w p taskId session branch worktreePath with
            | none => none
            | some (b, es) => some (b, preEffects w p taskId session worktreePath ++ es)
          else
            some (true, preEffects w p taskId session worktreePath
              ++ [.bdUpdate taskId "failed" (spawnFailNote p.spawn_grace),
                  .tmuxKill session, .removeWorktree p.workerId taskId])

theorem getLast?_append_singleton {α : Type} (l : List α) (a : α) :
    (l ++ [a]).getLast? = some a := by
  rw [List.getLast?_append_cons]
  rfl

/-- The poll loop only ever emits status updates, heartbeat touches and
sleeps: it never removes a worktree. -/
theorem poll_loop_no_remove (p : IterParams) (taskId : String)
    (ticks : List PollTick) (wid tid : String) :
    Effect.removeWorktree wid tid ∉ (poll_loop p taskId ticks).snd := by
  induction ticks with
  | nil => simp [poll_loop]
  | cons tick rest ih =>
    by_cases ht : tick.timedOut
    · simp [poll_loop, ht]
    · by_cases hs : tick.sessionExists
      · by_cases h1 : tick.status == "done"
        · simp [poll_loop, ht, hs, h1]
        · by_cases h2 : tick.status == "too_big"
          · simp [poll_loop, ht, hs, h1, h2]
          · by_cases h3 : tick.status == "blocked"
            · simp [poll_loop, ht, hs, h1, h2, h3]
            · by_cases h4 : tick.status == "failed"
              · simp [poll_loop, ht, hs, h1, h2, h3, h4]
              · simpa [poll_loop, ht, hs, h1, h2, h3, h4] using ih
      · by_cases hp : tick.status == "in_progress"
        · simp [poll_loop, ht, hs, hp]
        · simp [poll_loop, ht, hs, hp]

/-- On the path where the task is found, the claim succeeds, worktree and
context provisioning succeed and the grace-period liveness check passes, the
iteration is the supervise phase prefixed by the provisioning/spawn
effects. -/
theorem ralph_reach_supervise (w : IterWorld) (p : IterParams) (task : TaskRec)
    (worktreePath : String)
    (hnext : get_next_task w.bd = some task)
    (hclaim : w.claimOk = true)
    (hcreate : w.createResult = .ok worktreePath)
    (hcontext : w.contextResult = .ok ())
    (hlive : spawn_liveness w.graceStatus w.graceCaptureRc w.graceCaptureOut
        w.graceSessionExists = true) :
    ralph_loop_iteration w p =
      match supervise_phase w p (task.id.getD "")
          ("hive-" ++ p.workerId ++ "-" ++ task.id.getD "")
          ("task-" ++ task.id.getD "") worktreePath with
      | none => none
      | some (b, es) =>
        some (b, preEffects w p (task.id.getD "")
          ("hive-" ++ p.workerId ++ "-" ++ task.id.getD "") worktreePath ++ es) := by
  simp only [ralph_loop_iteration, hnext, hclaim, hcreate, hcontext, hlive,
    Bool.not_true, Bool.false_eq_true, if_false, if_true]

/-- On the same path but with the liveness check failing, the iteration marks
the task failed with the spawn-failure note, kills the session, removes the
worktree and returns `True` — with no unregistration. -/
theorem ralph_spawn_fail (w : IterWorld) (p : IterParams) (task : TaskRec)
    (worktreePath : String)
    (hnext : get_next_task w.bd = some task)
    (hclaim : w.claimOk = true)
    (hcreate : w.createResult = .ok worktreePath)
    (hcontext : w.contextResult = .ok ())
    (hlive : spawn_liveness w.graceStatus w.graceCaptureRc w.graceCaptureOut
        w.graceSessionExists = false) :
    ralph_loop_iteration w p =
      some (true, preEffects w p (task.id.getD "")
          ("hive-" ++ p.workerId ++ "-" ++ task.id.getD "") worktreePath
        ++ [.bdUpdate (task.id.getD "") "failed" (spawnFailNote p.spawn_grace),
            .tmuxKill ("hive-" ++ p.workerId ++ "-" ++ task.id.getD ""),
            .removeWorktree p.workerId (task.id.getD "")]) := by
  simp only [ralph_loop_iteration, hnext, hclaim, hcreate, hcontext, hlive,
    Bool.not_true, Bool.false_eq_true, if_false, if_true]

/-- C7: when the checkout of `main` succeeds but the merge exits nonzero,
`merge_branch` issues `git merge --abort` and returns `False`; and it returns
`True` exactly when both checkout and merge exit zero. -/
theorem C7_merge_branch_abort_on_conflict (c m : Int) (b : String) :
    (c = 0 → m ≠ 0 →
        merge_branch c m b = (false, [.gitCheckout "main", .gitMerge b, .gitMergeAbort]))
  ∧ ((merge_branch c m b).fst = true ↔ (c = 0 ∧ m = 0)) := by
  constructor
  · intro hc hm
    simp [merge_branch, hc, hm, bne_iff_ne]
  · constructor
    · intro h
      by_cases hc : c = 0
      · by_cases hm : m = 0
        · exact ⟨hc, hm⟩
        · simp [merge_branch, hc, hm, bne_iff_ne] at h
      · simp [merge_branch, hc, bne_iff_ne] at h
    · rintro ⟨hc, hm⟩
      simp [merge_branch, hc, hm]

/-- Witness for C7 at a concrete input. -/
theorem C7_witness :
    merge_branch 0 1 "task-hive-1"
      = (false, [.gitCheckout "main", .gitMerge "task-hive-1", .gitMergeAbort]) :=
  (C7_merge_branch_abort_on_conflict 0 1 "task-hive-1").1 rfl (by decide)

/-- C4: after the supervising phase reaches a terminal outcome, the
worktree-removal effect is emitted exactly when the outcome is not `blocked`
and not (`done` with the subsequent merge failing): removed for `too_big`,
`failed`, `timeout`, `crashed`, unexpected outcomes, and for `done` with a
successful merge; preserved exactly for `blocked` and for `done` with a
failed merge.  Stated both for the outcome-handling step itself and for the
full loop iteration on the path that reaches it. -/
theorem C4_workspace_removal_by_outcome (p : IterParams)
    (taskId branch worktreePath : String)
    (checkoutRc mergeRc : Int) (outcome : String) :
    (Effect.removeWorktree p.workerId taskId ∈
        handle_outcome p taskId branch worktreePath checkoutRc mergeRc outcome
      ↔ ¬(outcome = "blocked" ∨ (outcome = "done" ∧ ¬(checkoutRc = 0 ∧ mergeRc = 0))))
  ∧ (∀ (w : IterWorld) (task : TaskRec),
      get_next_task w.bd = some task →
      task.id.getD "" = taskId →
      w.claimOk = true → w.staleWorktree = false →
      w.createResult = .ok worktreePath → w.contextResult = .ok () →
      spawn_liveness w.graceStatus w.graceCaptureRc w.graceCaptureOut
        w.graceSessionExists = true →
      w.checkoutRc = checkoutRc → w.mergeRc = mergeRc →
      ∀ pes, poll_loop p taskId w.ticks = (some outcome, pes) →
      ∀ b es, ralph_loop_iteration w p = some (b, es) →
        b = true ∧
          (Effect.removeWorktree p.workerId taskId ∈ es ↔
            ¬(outcome = "blocked" ∨ (outcome = "done" ∧ ¬(checkoutRc = 0 ∧ mergeRc = 0))))) := by
  have hA : ∀ br wp, Effect.removeWorktree p.workerId taskId ∈
      handle_outcome p taskId br wp checkoutRc mergeRc outcome
        ↔ ¬(outcome = "blocked" ∨ (outcome = "done" ∧ ¬(checkoutRc = 0 ∧ mergeRc = 0))) := by
    intro br wp
    by_cases hdone : outcome = "done"
    · subst hdone
      by_cases hc : checkoutRc = 0
      · by_cases hm : mergeRc = 0
        · simp [handle_outcome, merge_branch, hc, hm]
        · simp [handle_outcome, merge_branch, hc, hm, bne_iff_ne]
      · simp [handle_outcome, merge_branch, hc, bne_iff_ne]
    · by_cases hblocked : outcome = "blocked"
      · simp [handle_outcome, hdone, hblocked]
      · have hho : handle_outcome p taskId br wp checkoutRc mergeRc outcome
            = [Effect.removeWorktree p.workerId taskId] := by
          simp only [handle_outcome, beq_iff_eq]
          split_ifs <;> simp_all
        rw [hho]
        simp [hdone, hblocked]
  refine ⟨hA branch worktreePath, ?_⟩
  intro w task hnext htid hclaim hstale hcreate hcontext hlive hc hm pes hpoll b es hres
  rw [ralph_reach_supervise w p task worktreePath hnext hclaim hcreate hcontext hlive] at hres
  rw [htid] at hres
  rw [supervise_phase, hpoll] at hres
  simp only [Option.some.injEq, Prod.mk.injEq] at hres
  obtain ⟨hb, hes⟩ := hres
  have hpes : Effect.removeWorktree p.workerId taskId ∉ pes := by
    have h := poll_loop_no_remove p taskId w.ticks p.workerId taskId
    rw [hpoll] at h
    exact h
  subst hc
  subst hm
  refine ⟨hb.symm, ?_⟩
  rw [← hes]
  refine Iff.trans ?_ (hA ("task-" ++ taskId) worktreePath)
  simp [preEffects, hstale, hpes]

/-- The spawn-failure note begins with the literal marker
`agent_spawn_failed`. -/
theorem spawnFailNote_marker (g : Nat) :
    List.IsPrefix ("agent_spawn_failed".data) ((spawnFailNote g).data) := by
  unfold spawnFailNote
  have h1 : (("agent_spawn_failed: no activity within " ++ toString g) ++ "s").data
      = ("agent_spawn_failed: no activity within ".data ++ (toString g).data)
        ++ "s".data := rfl
  rw [h1]
  refine List.IsPrefix.trans ?_ (List.prefix_append _ _)
  refine List.IsPrefix.trans ?_ (List.prefix_append _ _)
  exact ⟨": no activity within ".data, by decide⟩

/-- C5: on the path that reaches the grace-period check, liveness is false
exactly when the status is still `in_progress`, the captured pane shows no
output beyond the minimal prompt (`check_tmux_activity` false: capture failed
or at most 2 lines) and the session no longer exists; in that case the
iteration marks the task failed with a note beginning `agent_spawn_failed`,
kills the session, removes the worktree and returns `True` ("continue"); in
every other combination liveness is judged true and the iteration proceeds
to the supervise phase, which (when it terminates) runs to the final
unregistration. -/
theorem C5_spawn_failure_detection (w : IterWorld) (p : IterParams)
    (task : TaskRec) (worktreePath : String)
    (hnext : get_next_task w.bd = some task)
    (hclaim : w.claimOk = true)
    (hcreate : w.createResult = .ok worktreePath)
    (hcontext : w.contextResult = .ok ()) :
    (spawn_liveness w.graceStatus w.graceCaptureRc w.graceCaptureOut
        w.graceSessionExists = false
      ↔ (w.graceStatus = "in_progress"
          ∧ check_tmux_activity w.graceCaptureRc w.graceCaptureOut = false
          ∧ w.graceSessionExists = false))
  ∧ (spawn_liveness w.graceStatus w.graceCaptureRc w.graceCaptureOut
        w.graceSessionExists = false →
      ralph_loop_iteration w p =
        some (true, preEffects w p (task.id.getD "")
            ("hive-" ++ p.workerId ++ "-" ++ task.id.getD "") worktreePath
          ++ [.bdUpdate (task.id.getD "") "failed" (spawnFailNote p.spawn_grace),
              .tmuxKill ("hive-" ++ p.workerId ++ "-" ++ task.id.getD ""),
              .removeWorktree p.workerId (task.id.getD "")])
      ∧ List.IsPrefix ("agent_spawn_failed".data) ((spawnFailNote p.spawn_grace).data))
  ∧ (spawn_liveness w.graceStatus w.graceCaptureRc w.graceCaptureOut
        w.graceSessionExists = true →
      ∀ b es, ralph_loop_iteration w p = some (b, es) →
        es.getLast? = some (Effect.unregisterWorker p.workerId)) := by
  refine ⟨?_, ?_, ?_⟩
  · unfold spawn_liveness
    by_cases h1 : w.graceStatus = "in_progress"
    · by_cases h2 : check_tmux_activity w.graceCaptureRc w.graceCaptureOut
      · simp [h1, h2]
      · cases h3 : w.graceSessionExists <;> simp [h1, h2, h3]
    · simp [h1, bne_iff_ne]
  · intro hlive
    exact ⟨ralph_spawn_fail w p task worktreePath hnext hclaim hcreate hcontext hlive,
      spawnFailNote_marker p.spawn_grace⟩
  · intro hlive b es hres
    rw [ralph_reach_supervise w p task worktreePath hnext hclaim hcreate hcontext hlive] at hres
    rw [supervise_phase] at hres
    cases hpl : poll_loop p (task.id.getD "") w.ticks with
    | mk fst pes =>
      rw [hpl] at hres
      cases fst with
      | none => simp at hres
      | some outcome =>
        simp only [Option.some.injEq, Prod.mk.injEq] at hres
        obtain ⟨-, hes⟩ := hres
        rw [← hes]
        have hshape :
            preEffects w p (task.id.getD "")
                ("hive-" ++ p.workerId ++ "-" ++ task.id.getD "") worktreePath
              ++ (pes ++ .tmuxKill ("hive-" ++ p.workerId ++ "-" ++ task.id.getD "") ::
                  handle_outcome p (task.id.getD "") ("task-" ++ task.id.getD "")
                    worktreePath w.checkoutRc w.mergeRc outcome
                ++ [Effect.unregisterWorker p.workerId])
            = (preEffects w p (task.id.getD "")
                  ("hive-" ++ p.workerId ++ "-" ++ task.id.getD "") worktreePath
                ++ pes ++ .tmuxKill ("hive-" ++ p.workerId ++ "-" ++ task.id.getD "") ::
                  handle_outcome p (task.id.getD "") ("task-" ++ task.id.getD "")
                    worktreePath w.checkoutRc w.mergeRc outcome)
              ++ [Effect.unregisterWorker p.workerId] := by
          simp [List.append_assoc]
        rw [hshape, getLast?_append_singleton]

/-- C1 (amended): on every iteration that registers a worker and passes the
grace-period liveness check, the iteration (when its poll phase terminates)
ends with the unregistration of that worker; but on the spawn-failed path the
iteration returns "continue" without unregistering, leaving its own worker
record behind. -/
theorem C1_registry_record_lifecycle (w : IterWorld) (p : IterParams)
    (task : TaskRec) (worktreePath : String)
    (hnext : get_next_task w.bd = some task)
    (hclaim : w.claimOk = true)
    (hcreate : w.createResult = .ok worktreePath)
    (hcontext : w.contextResult = .ok ()) :
    (spawn_liveness w.graceStatus w.graceCaptureRc w.graceCaptureOut
        w.graceSessionExists = true →
      ∀ b es, ralph_loop_iteration w p = some (b, es) →
        Effect.registerWorker p.workerId (task.id.getD "")
            ("hive-" ++ p.workerId ++ "-" ++ task.id.getD "") worktreePath ∈ es
        ∧ es.getLast? = some (Effect.unregisterWorker p.workerId))
  ∧ (spawn_liveness w.graceStatus w.graceCaptureRc w.graceCaptureOut
        w.graceSessionExists = false →
      ∀ b es, ralph_loop_iteration w p = some (b, es) →
        b = true
        ∧ Effect.registerWorker p.workerId (task.id.getD "")
            ("hive-" ++ p.workerId ++ "-" ++ task.id.getD "") worktreePath ∈ es
        ∧ Effect.unregisterWorker p.workerId ∉ es) := by
  constructor
  · intro hlive b es hres
    rw [ralph_reach_supervise w p task worktreePath hnext hclaim hcreate hcontext hlive] at hres
    rw [supervise_phase] at hres
    cases hpl : poll_loop p (task.id.getD "") w.ticks with
    | mk fst pes =>
      rw [hpl] at hres
      cases fst with
      | none => simp at hres
      | some outcome =>
        simp only [Option.some.injEq, Prod.mk.injEq] at hres
        obtain ⟨-, hes⟩ := hres
        rw [← hes]
        constructor
        · cases hst : w.staleWorktree <;> simp [preEffects, hst]
        · have hshape :
              preEffects w p (task.id.getD "")
                  ("hive-" ++ p.workerId ++ "-" ++ task.id.getD "") worktreePath
                ++ (pes ++ .tmuxKill ("hive-" ++ p.workerId ++ "-" ++ task.id.getD "") ::
                    handle_outcome p (task.id.getD "") ("task-" ++ task.id.getD "")
                      worktreePath w.checkoutRc w.mergeRc outcome
                  ++ [Effect.unregisterWorker p.workerId])
              = (preEffects w p (task.id.getD "")
                    ("hive-" ++ p.workerId ++ "-" ++ task.id.getD "") worktreePath
                  ++ pes ++ .tmuxKill ("hive-" ++ p.workerId ++ "-" ++ task.id.getD "") ::
                    handle_outcome p (task.id.getD "") ("task-" ++ task.id.getD "")
                      worktreePath w.checkoutRc w.mergeRc outcome)
                ++ [Effect.unregisterWorker p.workerId] := by
            simp [List.append_assoc]
          rw [hshape, getLast?_append_singleton]
  · intro hlive b es hres
    rw [ralph_spawn_fail w p task worktreePath hnext hclaim hcreate hcontext hlive] at hres
    simp only [Option.some.injEq, Prod.mk.injEq] at hres
    obtain ⟨hb, hes⟩ := hres
    refine ⟨hb.symm, ?_, ?_⟩
    · rw [← hes]
      cases hst : w.staleWorktree <;> simp [preEffects, hst]
    · rw [← hes]
      cases hst : w.staleWorktree <;> simp [preEffects, hst]

/-! ## Concrete fixtures for counterexamples and witnesses -/

/-- A single dependency-free ready task. -/
def taskSimple : TaskRec := { id := some "hive-1", title := some "t", dependency_count := 0 }

/-- A tracker oracle whose ready list holds exactly `taskSimple`. -/
def oracleOneTask : BdOracle :=
  { listReturncode := 0, listParsed := some [taskSimple]
    showTask := fun _ => { returncode := 0, parsed := some [] } }

/-- The default CLI parameters of the `work` command. -/
def paramsDefault : IterParams :=
  { workerId := "worker-1", poll_interval := 5, task_timeout := 3600
    spawn_grace := 30, agent_command := "claude-code" }

/-- A world in which provisioning and spawn succeed and the first poll tick
reports `done`, with checkout and merge both succeeding. -/
def worldDone : IterWorld :=
  { bd := oracleOneTask, claimOk := true, staleWorktree := false
    createResult := .ok "worktrees/worker-1-hive-1", contextResult := .ok ()
    graceStatus := "done", graceCaptureRc := 0, graceCaptureOut := ""
    graceSessionExists := true
    ticks := [{ timedOut := false, sessionExists := true, status := "done" }]
    checkoutRc := 0, mergeRc := 0 }

/-- A world in which the grace period elapses with the status still
`in_progress`, a failed pane capture (the session is gone, so `capture-pane`
exits nonzero and no output is seen), and the session absent. -/
def worldSpawnFail : IterWorld :=
  { bd := oracleOneTask, claimOk := true, staleWorktree := false
    createResult := .ok "worktrees/worker-1-hive-1", contextResult := .ok ()
    graceStatus := "in_progress", graceCaptureRc := 1, graceCaptureOut := ""
    graceSessionExists := false
    ticks := [], checkoutRc := 0, mergeRc := 0 }

/-- The effect trace of one iteration in `worldDone`. -/
def doneTrace : List Effect :=
  [.bdClaim "hive-1",
   .createWorktree "worker-1" "hive-1",
   .tmuxKill "hive-worker-1-hive-1",
   .tmuxNewSession "hive-worker-1-hive-1" "worktrees/worker-1-hive-1",
   .tmuxSendKeys "hive-worker-1-hive-1" "claude-code",
   .registerWorker "worker-1" "hive-1" "hive-worker-1-hive-1" "worktrees/worker-1-hive-1",
   .sleep 30,
   .touchWorker "worker-1",
   .tmuxKill "hive-worker-1-hive-1",
   .gitCheckout "main",
   .gitMerge "task-hive-1",
   .removeWorktree "worker-1" "hive-1",
   .unregisterWorker "worker-1"]

/-- The effect trace of one iteration in `worldSpawnFail`. -/
def spawnFailTrace : List Effect :=
  [.bdClaim "hive-1",
   .createWorktree "worker-1" "hive-1",
   .tmuxKill "hive-worker-1-hive-1",
   .tmuxNewSession "hive-worker-1-hive-1" "worktrees/worker-1-hive-1",
   .tmuxSendKeys "hive-worker-1-hive-1" "claude-code",
   .registerWorker "worker-1" "hive-1" "hive-worker-1-hive-1" "worktrees/worker-1-hive-1",
   .sleep 30,
   .bdUpdate "hive-1" "failed" (spawnFailNote 30),
   .tmuxKill "hive-worker-1-hive-1",
   .removeWorktree "worker-1" "hive-1"]

/-- C1 counterexample: a spawn-failed iteration registers its worker record,
returns `True` ("continue"), and never unregisters — the claim that every
registering iteration deletes its record at the end, including the
spawn-failed outcome, is false on the code. -/
theorem C1_counterexample_spawn_fail_leaves_record :
    ralph_loop_iteration worldSpawnFail paramsDefault = some (true, spawnFailTrace)
  ∧ Effect.registerWorker "worker-1" "hive-1" "hive-worker-1-hive-1"
      "worktrees/worker-1-hive-1" ∈ spawnFailTrace
  ∧ Effect.unregisterWorker "worker-1" ∉ spawnFailTrace := by
  refine ⟨by decide, by decide, by decide⟩

/-- Witness for C1 (amended) at a concrete input. -/
theorem C1_witness :
    Effect.registerWorker "worker-1" "hive-1" "hive-worker-1-hive-1"
        "worktrees/worker-1-hive-1" ∈ doneTrace
  ∧ doneTrace.getLast? = some (Effect.unregisterWorker "worker-1") :=
  (C1_registry_record_lifecycle worldDone paramsDefault taskSimple
      "worktrees/worker-1-hive-1" (by decide) rfl rfl rfl).1
    (by decide) true doneTrace (by decide)

/-- Witness for C4 at a concrete input: outcome `done`, merge successful,
worktree removed. -/
theorem C4_witness :
    true = true
  ∧ (Effect.removeWorktree "worker-1" "hive-1" ∈ doneTrace ↔
      ¬(("done" : String) = "blocked"
        ∨ (("done" : String) = "done" ∧ ¬((0 : Int) = 0 ∧ (0 : Int) = 0)))) :=
  (C4_workspace_removal_by_outcome paramsDefault "hive-1" "task-hive-1"
      "worktrees/worker-1-hive-1" 0 0 "done").2
    worldDone taskSimple (by decide) rfl rfl rfl rfl rfl (by decide) rfl rfl
    [Effect.touchWorker "worker-1"] (by decide) true doneTrace (by decide)

/-- Witness for C5 at a concrete input: the spawn-failed world takes the
failure path. -/
theorem C5_witness :
    ralph_loop_iteration worldSpawnFail paramsDefault =
      some (true, preEffects worldSpawnFail paramsDefault "hive-1"
          "hive-worker-1-hive-1" "worktrees/worker-1-hive-1"
        ++ [.bdUpdate "hive-1" "failed" (spawnFailNote 30),
            .tmuxKill "hive-worker-1-hive-1",
            .removeWorktree "worker-1" "hive-1"])
  ∧ List.IsPrefix ("agent_spawn_failed".data) ((spawnFailNote 30).data) :=
  (C5_spawn_failure_detection worldSpawnFail paramsDefault taskSimple
      "worktrees/worker-1-hive-1" (by decide) rfl rfl rfl).2.1 (by decide)

/-! ## Workspace Manager: `remove_worktree` (worktree.py lines 89-172) -/

/-- Commands `remove_worktree` can issue, in program order. -/
inductive WtEffect where
  | gitWorktreeRemove (path : String) (force : Bool)
  | rmtreeDir (path : String)
  | gitWorktreePrune
  | gitBranchDelete (branch : String)
deriving DecidableEq, Repr

/-- The filesystem/git answers one `remove_worktree` call observes. -/
structure WtWorld where
  dirExists : Bool
  gitRemoveRc : Int
  rmtreeOk : Bool
deriving Repr

/-- The path `self.worktrees_dir / f"{worker_id}-{task_id}"` (worktree.py
lines 105-106). -/
def worktree_path (dir workerId taskId : String) : String :=
  dir ++ "/" ++ workerId ++ "-" ++ taskId

/-- The branch name `f"task-{task_id}"` (worktree.py line 107). -/
def branch_name (taskId : String) : String := "task-" ++ taskId

/-- Method `remove_worktree` (worktree.py lines 89-172), branch by branch: when the
directory does not exist, issue one forced `git worktree remove` (errors
ignored) and return — the branch-deletion step at lines 161-172 is never
reached.  When the directory exists: `git worktree remove` (with `--force`
when asked); on failure with `force`, fall back to `shutil.rmtree` plus
`git worktree prune`, raising `WorktreeError` if the manual cleanup also
fails; on failure without `force`, raise `WorktreeError`; after a successful
removal, delete the branch, swallowing any failure of that deletion. -/
def remove_worktree (w : WtWorld) (dir workerId taskId : String) (force : Bool) :
    Except String Unit × List WtEffect :=
  let path := worktree_path dir workerId taskId
  let branch := branch_name taskId
  if !w.dirExists then
    (.ok (), [.gitWorktreeRemove path true])
  else
    if w.gitRemoveRc == 0 then
      (.ok (), [.gitWorktreeRemove path force, .gitBranchDelete branch])
    else if force then
      if w.rmtreeOk then
        (.ok (), [.gitWorktreeRemove path force, .rmtreeDir path,
          .gitWorktreePrune, .gitBranchDelete branch])
      else
        (.error "WorktreeError: cleanup failed",
         [.gitWorktreeRemove path force, .rmtreeDir path])
    else
      (.error "WorktreeError: removal failed", [.gitWorktreeRemove path force])

/-- The set of branches after a command trace runs: only branch-deletion
commands change it. -/
def branchesAfter (ops : List WtEffect) (branches : List String) : List String :=
  ops.foldl (fun bs op =>
    match op with
    | .gitBranchDelete b => bs.filter (fun x => x != b)
    | _ => bs) branches

/-- C10: calling `remove_worktree` for a pair whose worktree directory does
not exist issues exactly one forced `git worktree remove` of the tracked path
and returns successfully; no branch-deletion command is ever attempted, so
however the branch set looked before, it is unchanged — in particular the
`task-<task_id>` branch, if present, survives. -/
theorem C10_remove_missing_dir_preserves_branch (w : WtWorld)
    (dir workerId taskId : String) (force : Bool)
    (hdir : w.dirExists = false) :
    remove_worktree w dir workerId taskId force
      = (.ok (), [.gitWorktreeRemove (worktree_path dir workerId taskId) true])
  ∧ (∀ b, WtEffect.gitBranchDelete b ∉ (remove_worktree w dir workerId taskId force).snd)
  ∧ (∀ branches, branchesAfter (remove_worktree w dir workerId taskId force).snd branches
      = branches)
  ∧ (∀ branches, branch_name taskId ∈ branches →
      branch_name taskId ∈
        branchesAfter (remove_worktree w dir workerId taskId force).snd branches) := by
  have hr : remove_worktree w dir workerId taskId force
      = (.ok (), [.gitWorktreeRemove (worktree_path dir workerId taskId) true]) := by
    simp [remove_worktree, hdir]
  refine ⟨hr, ?_, ?_, ?_⟩
  · intro b
    rw [hr]
    simp
  · intro branches
    rw [hr]
    simp [branchesAfter]
  · intro branches hb
    rw [hr]
    simpa [branchesAfter] using hb

/-- Witness for C10 at a concrete input. -/
theorem C10_witness :
    remove_worktree { dirExists := false, gitRemoveRc := 0, rmtreeOk := true }
        "worktrees" "worker-1" "hive-1" true
      = (.ok (), [.gitWorktreeRemove "worktrees/worker-1-hive-1" true]) :=
  (C10_remove_missing_dir_preserves_branch
      { dirExists := false, gitRemoveRc := 0, rmtreeOk := true }
      "worktrees" "worker-1" "hive-1" true rfl).1

end Hive
